import Mathlib

/-!
Shallow embedding of the FlareGate escrow settlement protocol.

Part 1 models the settlement-ledger contract `FlareGateEscrow.sol`:
the escrow record, its state enumeration, and the four transition
operations (`confirmDelivery`, `confirmReceived`, `claimTimeout`,
`refund`) together with the internal fund-release routine
`_releaseFunds`.  Addresses and 32-byte digests are modelled as
naturals (`0` stands for the zero address / unset `bytes32`); Solidity
0.8 checked arithmetic is modelled by explicit reverts when a `uint256`
operation would exceed `2^256`.  A Solidity `require` failure reverts
the whole transaction, so an operation returns `Except String`:
`.error msg` means the transaction reverted with reason `msg` and the
stored escrow is unchanged; `.ok` carries the updated record and the
list of value transfers the call performed.
-/

namespace FlareGate

/-- `enum EscrowState` of `FlareGateEscrow.sol` (also the numeric TS enum
`EscrowState` of the shared package, in the same order). -/
inductive EscrowState where
  | Created
  | Delivered
  | Completed
  | Disputed
  | Refunded
  | Claimed
deriving DecidableEq, Repr

/-- Numeric value of the state, as in the Solidity/TypeScript enums. -/
def EscrowState.toNum : EscrowState → Nat
  | .Created => 0
  | .Delivered => 1
  | .Completed => 2
  | .Disputed => 3
  | .Refunded => 4
  | .Claimed => 5

/-- `struct Escrow` of `FlareGateEscrow.sol`.  Addresses (`agent`,
`provider`, `token`) and `bytes32` digests (`deliveryHash`,
`receiptHash`) are naturals; `0` is the zero address / unset digest. -/
structure Escrow where
  id : Nat
  agent : Nat
  provider : Nat
  amount : Nat
  token : Nat
  endpoint : String
  deliveryHash : Nat
  receiptHash : Nat
  state : EscrowState
  createdAt : Nat
  deliveredAt : Nat
  timeout : Nat
deriving DecidableEq, Repr

/-- `FEE_BPS` constant of the contract: 1% = 100 basis points. -/
def FEE_BPS : Nat := 100

/-- One more than the largest `uint256`; checked arithmetic reverts at
this bound. -/
def UMAX : Nat := 2 ^ 256

/-- A single value transfer performed by the contract (native send or
ERC-20 `safeTransfer`). -/
structure Transfer where
  recipient : Nat
  value : Nat
deriving DecidableEq, Repr

/-- `_releaseFunds`: fee is `amount * FEE_BPS / 10000` (floor), provider
payout is `amount - fee`; the fee transfer is skipped when the fee is
zero.  The multiplication is `uint256`-checked. -/
def releaseFunds (feeRecipient : Nat) (e : Escrow) : Except String (List Transfer) :=
  if e.amount * FEE_BPS ≥ UMAX then .error "arithmetic overflow"
  else
    let fee := e.amount * FEE_BPS / 10000
    let payout := e.amount - fee
    .ok (⟨e.provider, payout⟩ :: (if fee > 0 then [⟨feeRecipient, fee⟩] else []))

/-- `createEscrow` (native-asset flow): requires a positive deposit, a
nonzero provider and a positive timeout, then stores a fresh `Created`
record. -/
def createEscrow (paused : Bool) (now sender nextId provider : Nat)
    (endpoint : String) (timeout msgValue : Nat) : Except String Escrow :=
  if paused then .error "Pausable: paused"
  else if msgValue = 0 then .error "Must deposit funds"
  else if provider = 0 then .error "Invalid provider"
  else if timeout = 0 then .error "Timeout must be positive"
  else .ok
    { id := nextId, agent := sender, provider := provider, amount := msgValue,
      token := 0, endpoint := endpoint, deliveryHash := 0, receiptHash := 0,
      state := .Created, createdAt := now, deliveredAt := 0, timeout := timeout }

/-- `confirmDelivery(_escrowId, _dataHash)`: requires an existing
escrow, caller `provider`, state `Created`; sets `deliveryHash`,
`deliveredAt` and moves to `Delivered`. -/
def confirmDelivery (paused : Bool) (now sender : Nat) (e : Escrow)
    (dataHash : Nat) : Except String Escrow :=
  if paused then .error "Pausable: paused"
  else if e.id = 0 then .error "Escrow does not exist"
  else if sender ≠ e.provider then .error "Only provider can confirm delivery"
  else if e.state ≠ .Created then .error "Invalid state"
  else .ok { e with deliveryHash := dataHash, state := .Delivered, deliveredAt := now }

/-- `confirmReceived(_escrowId, _dataHash)`: requires an existing
escrow, caller `agent`, state `Delivered`; records `receiptHash`; on a
digest match moves to `Completed` and releases funds, otherwise moves
to `Disputed` with no transfer.  The returned `Bool` is the
`hashesMatch` flag of the `ReceiptConfirmed` event. -/
def confirmReceived (paused : Bool) (feeRecipient sender : Nat) (e : Escrow)
    (dataHash : Nat) : Except String (Escrow × Bool × List Transfer) :=
  if paused then .error "Pausable: paused"
  else if e.id = 0 then .error "Escrow does not exist"
  else if sender ≠ e.agent then .error "Only agent can confirm receipt"
  else if e.state ≠ .Delivered then .error "Invalid state"
  else
    let e1 := { e with receiptHash := dataHash }
    if dataHash = e.deliveryHash then
      match releaseFunds feeRecipient { e1 with state := .Completed } with
      | .error msg => .error msg
      | .ok ts => .ok ({ e1 with state := .Completed }, true, ts)
    else
      .ok ({ e1 with state := .Disputed }, false, [])

/-- `claimTimeout(_escrowId)`: requires an existing escrow, caller
`provider`, state `Delivered` and `now > deliveredAt + timeout`; then
moves to `Claimed` and releases funds with the same fee split. -/
def claimTimeout (paused : Bool) (feeRecipient now sender : Nat) (e : Escrow) :
    Except String (Escrow × List Transfer) :=
  if paused then .error "Pausable: paused"
  else if e.id = 0 then .error "Escrow does not exist"
  else if sender ≠ e.provider then .error "Only provider can claim timeout"
  else if e.state ≠ .Delivered then .error "Invalid state"
  else if e.deliveredAt + e.timeout ≥ UMAX then .error "arithmetic overflow"
  else if ¬ now > e.deliveredAt + e.timeout then .error "Timeout not reached"
  else
    match releaseFunds feeRecipient e with
    | .error msg => .error msg
    | .ok ts => .ok ({ e with state := .Claimed }, ts)

/-- `refund(_escrowId)`: requires an existing escrow, caller `agent`,
state `Created` and `now > createdAt + timeout`; then moves to
`Refunded` and returns the full locked amount to the agent with no fee
deducted. -/
def refund (paused : Bool) (now sender : Nat) (e : Escrow) :
    Except String (Escrow × List Transfer) :=
  if paused then .error "Pausable: paused"
  else if e.id = 0 then .error "Escrow does not exist"
  else if sender ≠ e.agent then .error "Only agent can request refund"
  else if e.state ≠ .Created then .error "Invalid state"
  else if e.createdAt + e.timeout ≥ UMAX then .error "arithmetic overflow"
  else if ¬ now > e.createdAt + e.timeout then .error "Timeout not reached"
  else .ok ({ e with state := .Refunded }, [⟨e.agent, e.amount⟩])

/-- Total value paid to a given recipient by a list of transfers. -/
def paidTo (ts : List Transfer) (who : Nat) : Nat :=
  ((ts.filter (fun t => t.recipient = who)).map Transfer.value).sum

end FlareGate

/-!
Part 2 models the JavaScript JSON round-trip the gateway performs on
the upstream response body: `JSON.parse(responseBody)` inside the proxy
program, followed by Express's `res.json`, which serializes the parsed
value back with `JSON.stringify` (no added whitespace).  The model
covers the JSON fragment actually exchanged here: whitespace, `null`,
booleans, integer numbers, strings without escape sequences, arrays and
objects; `Json.parse` returns `none` where `JSON.parse` would throw (or
where the body leaves this fragment).
-/

namespace MiniJson

/-- A JSON value (numbers restricted to integers). -/
inductive Json where
  | null : Json
  | bool : Bool → Json
  | num : Int → Json
  | str : String → Json
  | arr : List Json → Json
  | obj : List (String × Json) → Json
deriving Repr, BEq

def isWs (c : Char) : Bool :=
  c = ' ' || c = '\n' || c = '\t' || c = '\r'

def skipWs : List Char → List Char
  | [] => []
  | c :: cs => if isWs c then skipWs cs else c :: cs

/-- Parse a run of at least one decimal digit into a natural. -/
def parseDigitsAux : List Char → Nat → Bool → Option (Nat × List Char)
  | [], acc, seen => if seen then some (acc, []) else none
  | c :: cs, acc, seen =>
    if c.isDigit then parseDigitsAux cs (acc * 10 + (c.toNat - 48)) true
    else if seen then some (acc, c :: cs) else none

/-- A number token must not continue with a fraction or exponent
(floating-point bodies are outside the modelled fragment). -/
def numTailOk : List Char → Bool
  | '.' :: _ => false
  | 'e' :: _ => false
  | 'E' :: _ => false
  | _ => true

/-- Parse the remainder of a string literal (opening quote already
consumed); escape sequences are outside the modelled fragment. -/
def parseStringAux : List Char → String → Option (String × List Char)
  | [], _ => none
  | c :: cs, acc =>
    if c = '"' then some (acc, cs)
    else if c = '\\' then none
    else parseStringAux cs (acc.push c)

mutual

/-- Recursive-descent JSON value parser, fuelled for termination. -/
def parseValue : Nat → List Char → Option (Json × List Char)
  | 0, _ => none
  | fuel + 1, input =>
    match skipWs input with
    | 'n' :: 'u' :: 'l' :: 'l' :: r => some (.null, r)
    | 't' :: 'r' :: 'u' :: 'e' :: r => some (.bool true, r)
    | 'f' :: 'a' :: 'l' :: 's' :: 'e' :: r => some (.bool false, r)
    | '"' :: cs => (parseStringAux cs "").map (fun p => (.str p.1, p.2))
    | '[' :: cs =>
      (match skipWs cs with
       | ']' :: r => some (.arr [], r)
       | cs2 => (parseArrItems fuel cs2).map (fun p => (.arr p.1, p.2)))
    | '\x7b' :: cs =>
      (match skipWs cs with
       | '\x7d' :: r => some (.obj [], r)
       | cs2 => (parseObjItems fuel cs2).map (fun p => (.obj p.1, p.2)))
    | '-' :: cs =>
      (parseDigitsAux cs 0 false).bind fun p =>
        if numTailOk p.2 then some (.num (-(p.1 : Int)), p.2) else none
    | c :: cs =>
      if c.isDigit then
        (parseDigitsAux (c :: cs) 0 false).bind fun p =>
          if numTailOk p.2 then some (.num (p.1 : Int), p.2) else none
      else none
    | [] => none

/-- Parse one or more comma-separated array items up to `]`. -/
def parseArrItems : Nat → List Char → Option (List Json × List Char)
  | 0, _ => none
  | fuel + 1, cs =>
    match parseValue fuel cs with
    | none => none
    | some (v, r) =>
      match skipWs r with
      | ',' :: r2 => (parseArrItems fuel r2).map (fun p => (v :: p.1, p.2))
      | ']' :: r2 => some ([v], r2)
      | _ => none

/-- Parse one or more comma-separated object members up to a closing
brace. -/
def parseObjItems : Nat → List Char → Option (List (String × Json) × List Char)
  | 0, _ => none
  | fuel + 1, cs =>
    match skipWs cs with
    | '"' :: cs2 =>
      match parseStringAux cs2 "" with
      | none => none
      | some (k, r) =>
        match skipWs r with
        | ':' :: r2 =>
          (match parseValue fuel r2 with
           | none => none
           | some (v, r3) =>
             match skipWs r3 with
             | ',' :: r4 => (parseObjItems fuel r4).map (fun p => ((k, v) :: p.1, p.2))
             | '\x7d' :: r4 => some ([(k, v)], r4)
             | _ => none)
        | _ => none
    | _ => none

end

/-- `JSON.parse` on the modelled fragment: a single value, optionally
surrounded by whitespace; trailing garbage is rejected. -/
def Json.parse (s : String) : Option Json :=
  match parseValue (s.length + 1) s.data with
  | some (v, r) => if skipWs r = [] then some v else none
  | none => none

def escapeChar (c : Char) : String :=
  if c = '"' then "\\\"" else if c = '\\' then "\\\\" else String.singleton c

def escapeStr (s : String) : String :=
  String.join (s.data.map escapeChar)

mutual

/-- `JSON.stringify` with default separators (no added whitespace), as
Express's `res.json` uses it. -/
def Json.stringify : Json → String
  | .null => "null"
  | .bool true => "true"
  | .bool false => "false"
  | .num n => toString n
  | .str s => "\"" ++ escapeStr s ++ "\""
  | .arr xs => "[" ++ stringifyItems xs ++ "]"
  | .obj kvs => "\x7b" ++ stringifyMembers kvs ++ "\x7d"

def stringifyItems : List Json → String
  | [] => ""
  | [x] => Json.stringify x
  | x :: xs => Json.stringify x ++ "," ++ stringifyItems xs

def stringifyMembers : List (String × Json) → String
  | [] => ""
  | [kv] => "\"" ++ escapeStr kv.1 ++ "\":" ++ Json.stringify kv.2
  | kv :: kvs =>
    "\"" ++ escapeStr kv.1 ++ "\":" ++ Json.stringify kv.2 ++ "," ++ stringifyMembers kvs

end

end MiniJson

/-!
Part 3 models the gateway's proxy route (`makeProxyRouter` in
`packages/gateway/src/routes/proxy.ts`) as a pure function of the
request and of the outcomes of its three external calls (catalog
lookup, ledger read/write, upstream fetch), which are passed in as
oracle values.  The hash function (`hashResponseData`, keccak-256 over
the utf-8 bytes of the body string) is a parameter; what the claims
need is recorded in the outcome: which byte string was hashed, which
calls were made, and the response status/headers/body.  `Except.error`
values feed the route's `catchTag` handlers exactly as in the source.
-/

namespace Gateway

open FlareGate (EscrowState)

/-- `ApiEndpoint` of the shared types: one priced operation of a
listing. -/
structure ApiEndpoint where
  path : String
  method : String
  priceWei : String
  description : String
deriving DecidableEq, Repr

/-- `ApiListing` of the shared types: a registered upstream API. -/
structure ApiListing where
  id : String
  name : String
  description : String
  providerAddress : String
  baseUrl : String
  endpoints : List ApiEndpoint
deriving DecidableEq, Repr

/-- The escrow record as the gateway's live contract layer returns it
(`makeEscrowContractLive.getEscrow`): addresses and digests as strings,
numeric fields as naturals. -/
structure GwEscrow where
  id : Nat
  agent : String
  provider : String
  amount : Nat
  endpoint : String
  deliveryHash : String
  receiptHash : String
  state : EscrowState
  createdAt : Nat
  deliveredAt : Nat
  timeout : Nat
deriving DecidableEq, Repr

/-- The tagged errors the proxy program can fail with
(`ApiNotFound`, `EscrowNotFound`, `ContractCallFailed`,
`ApiCallFailed` from the shared error taxonomy). -/
inductive GwError where
  | apiNotFound (listingId : String)
  | escrowNotFound (escrowId : Nat)
  | contractCallFailed (method reason : String)
  | apiCallFailed (url : String) (status : Nat) (body : String)
deriving DecidableEq, Repr

/-- Response bodies the proxy route produces: the structured 402
payment demand, a JSON error object, or the parsed upstream body on
success. -/
inductive ProxyBody where
  | paymentRequired (error price currency provider endpoint contractAddress : String)
      (chainId : Nat) (instructions : String)
  | errorMsg (msg : String)
  | success (v : MiniJson.Json)
deriving Repr

/-- Everything observable about one handled proxy request: the HTTP
response and which of the route's side-effecting calls were made. -/
structure ProxyOutcome where
  status : Nat
  headers : List (String × String)
  body : ProxyBody
  /-- The exact byte string over which `hashResponseData` was invoked,
  when the route got that far. -/
  hashedInput : Option String
  /-- Whether the request was forwarded to the upstream provider. -/
  upstreamCalled : Bool
  /-- Whether `confirmDelivery` was invoked on the ledger. -/
  confirmDeliveryCalled : Bool
deriving Repr

/-- The byte string Express sends as the body of a 200 response:
`res.json` re-serializes the parsed value with `JSON.stringify`. -/
def ProxyOutcome.sentBodyBytes (o : ProxyOutcome) : Option String :=
  match o.body with
  | .success v => some v.stringify
  | _ => none

/-- JavaScript `||` on the strings used here: the empty string is the
only falsy value that occurs (an absent property is modelled as `""`,
which is equally falsy). -/
def jsOrStr (a b : String) : String := if a = "" then b else a

/-- Boolean prefix test on character lists. -/
def isPrefixOfChars : List Char → List Char → Bool
  | [], _ => true
  | _ :: _, [] => false
  | a :: as, b :: bs => a = b && isPrefixOfChars as bs

/-- JS `String.prototype.startsWith`: does `pre` begin `s`? -/
def strStartsWith (s pre : String) : Bool := isPrefixOfChars pre.data s.data

/-- Digit-string accumulator for the numeric coercions. -/
def strToNatAux : List Char → Nat → Option Nat
  | [], acc => some acc
  | c :: cs, acc =>
    if c.isDigit then strToNatAux cs (acc * 10 + (c.toNat - 48)) else none

/-- JS numeric coercion for the decimal strings used here:
`Number(header)` for the escrow id and `BigInt(priceWei)` for the
price both send `""` to `0` and a digit string to its value. -/
def jsNat (s : String) : Nat :=
  match s.data with
  | [] => 0
  | cs => (strToNatAux cs 0).getD 0

/-- Price resolution of proxy.ts lines 48-49:
`endpoint?.priceWei || listing.endpoints[0]?.priceWei || "0"` where
`endpoint` is the first listed endpoint whose `path` is a prefix of the
requested sub-path. -/
def resolvePriceWei (listing : ApiListing) (subPath : String) : String :=
  let matched := listing.endpoints.find? (fun e => strStartsWith subPath e.path)
  jsOrStr (match matched with | some e => e.priceWei | none => "")
    (jsOrStr (match listing.endpoints.head? with | some e => e.priceWei | none => "") "0")

/-- The route's `catchTag` handlers: each tagged failure becomes a
status code and a JSON error body. -/
def catchError : GwError → Nat × ProxyBody
  | .apiNotFound lid =>
    (404, .errorMsg ("API listing \x27" ++ lid ++ "\x27 not found"))
  | .escrowNotFound eid =>
    (400, .errorMsg ("Escrow #" ++ toString eid ++ " not found on-chain"))
  | .contractCallFailed m r =>
    (500, .errorMsg ("Contract call failed: " ++ m ++ " — " ++ r))
  | .apiCallFailed url _ body =>
    (502, .errorMsg ("API call failed: " ++ url ++ " — " ++ body))

/-- The proxy program of `makeProxyRouter`, straight-line as in the
source.  `registryResult` is the catalog lookup's outcome,
`getEscrowResult` the ledger read keyed by the parsed escrow id,
`upstreamFetch` the raw upstream fetch outcome (`.ok` carries the
response text, `.error` the stringified fetch failure), and
`confirmDeliveryResult` the ledger write's outcome.  A `none` from
`JSON.parse` on the upstream body is a defect the outer try/catch turns
into a plain 500, after the delivery was already committed. -/
def proxyProgram
    (hashFn : String → String)
    (contractAddress walletAddress : String)
    (registryResult : Except GwError ApiListing)
    (subPath : String)
    (escrowIdHeader : Option String)
    (getEscrowResult : Nat → Except GwError GwEscrow)
    (upstreamFetch : Except String String)
    (confirmDeliveryResult : Except GwError Unit) : ProxyOutcome :=
  match registryResult with
  | .error e =>
    { status := (catchError e).1, headers := [], body := (catchError e).2,
      hashedInput := none, upstreamCalled := false, confirmDeliveryCalled := false }
  | .ok listing =>
    let priceWei := resolvePriceWei listing subPath
    match escrowIdHeader with
    | none =>
      { status := 402, headers := [],
        body := .paymentRequired "Payment Required" priceWei "C2FLR"
          (jsOrStr listing.providerAddress walletAddress) subPath contractAddress 16
          "Create escrow with createEscrow(provider, endpoint, timeout) and retry with X-Escrow-Id header",
        hashedInput := none, upstreamCalled := false, confirmDeliveryCalled := false }
    | some hdr =>
      let escrowId := jsNat hdr
      match getEscrowResult escrowId with
      | .error e =>
        { status := (catchError e).1, headers := [], body := (catchError e).2,
          hashedInput := none, upstreamCalled := false, confirmDeliveryCalled := false }
      | .ok escrow =>
        if escrow.state ≠ EscrowState.Created then
          { status := 400, headers := [],
            body := .errorMsg ("Escrow #" ++ toString escrowId
              ++ " is not in Created state (state: " ++ toString escrow.state.toNum ++ ")"),
            hashedInput := none, upstreamCalled := false, confirmDeliveryCalled := false }
        else if escrow.amount < jsNat priceWei then
          { status := 400, headers := [],
            body := .errorMsg ("Escrow amount insufficient. Required: " ++ priceWei
              ++ ", deposited: " ++ toString escrow.amount),
            hashedInput := none, upstreamCalled := false, confirmDeliveryCalled := false }
        else
          let targetUrl := listing.baseUrl ++ subPath
          match upstreamFetch with
          | .error errStr =>
            let e := GwError.apiCallFailed targetUrl 0 errStr
            { status := (catchError e).1, headers := [], body := (catchError e).2,
              hashedInput := none, upstreamCalled := true, confirmDeliveryCalled := false }
          | .ok responseBody =>
            let dataHash := hashFn responseBody
            match confirmDeliveryResult with
            | .error e =>
              { status := (catchError e).1, headers := [], body := (catchError e).2,
                hashedInput := some responseBody, upstreamCalled := true,
                confirmDeliveryCalled := true }
            | .ok _ =>
              match MiniJson.Json.parse responseBody with
              | none =>
                { status := 500, headers := [], body := .errorMsg "Internal server error",
                  hashedInput := some responseBody, upstreamCalled := true,
                  confirmDeliveryCalled := true }
              | some v =>
                { status := 200,
                  headers := [("X-Data-Hash", dataHash), ("X-Escrow-Id", toString escrowId)],
                  body := .success v,
                  hashedInput := some responseBody, upstreamCalled := true,
                  confirmDeliveryCalled := true }

/-- `ApiRegistryLive.getById`: find the listing by id, else
`ApiNotFound`. -/
def registryGetById (listings : List ApiListing) (id : String) : Except GwError ApiListing :=
  match listings.find? (fun l => l.id == id) with
  | some l => .ok l
  | none => .error (.apiNotFound id)

/-- `makeEscrowContractLive.getEscrow`: the raw contract call's outcome
(`.error` covers any rejection — revert, network failure, RPC timeout)
is caught and mapped, whatever it was, to `EscrowNotFound`. -/
def liveGetEscrow (escrowId : Nat) (raw : Except String GwEscrow) : Except GwError GwEscrow :=
  match raw with
  | .ok e => .ok e
  | .error _ => .error (.escrowNotFound escrowId)

/-- `makeEscrowContractLive.confirmDelivery`: any rejection of the raw
contract call is mapped to `ContractCallFailed` carrying the method
name and the stringified cause. -/
def liveConfirmDelivery (raw : Except String Unit) : Except GwError Unit :=
  match raw with
  | .ok _ => .ok ()
  | .error err => .error (.contractCallFailed "confirmDelivery" err)

end Gateway

/-!
Part 4: the §4.1 transition table as data, to state the totality claim.
The four transition operations, each row's source state, designated
caller, timeout guard and target state, read off the table (and, for
`confirmReceived`, the hash-comparison branch of the code).
-/

namespace FlareGate

/-- The four transition operations of the state machine. -/
inductive EscrowOp where
  | confirmDeliveryOp
  | confirmReceivedOp
  | claimTimeoutOp
  | refundOp
deriving DecidableEq, Repr

/-- The source state of the operation's row in the §4.1 table. -/
def tableFrom : EscrowOp → EscrowState
  | .confirmDeliveryOp => .Created
  | .confirmReceivedOp => .Delivered
  | .claimTimeoutOp => .Delivered
  | .refundOp => .Created

/-- The caller the row's guard demands. -/
def rowCaller (e : Escrow) : EscrowOp → Nat
  | .confirmDeliveryOp => e.provider
  | .confirmReceivedOp => e.agent
  | .claimTimeoutOp => e.provider
  | .refundOp => e.agent

/-- The row's timeout guard (trivial for the two confirmations). -/
def rowTimeoutGuard (op : EscrowOp) (now : Nat) (e : Escrow) : Prop :=
  match op with
  | .claimTimeoutOp => now > e.deliveredAt + e.timeout
  | .refundOp => now > e.createdAt + e.timeout
  | _ => True

instance (op : EscrowOp) (now : Nat) (e : Escrow) : Decidable (rowTimeoutGuard op now e) := by
  cases op <;> simp [rowTimeoutGuard] <;> infer_instance

/-- The row's target state (`Delivered`, `Completed`/`Disputed`,
`Claimed`, `Refunded`). -/
def rowTarget (op : EscrowOp) (e : Escrow) (h : Nat) : EscrowState :=
  match op with
  | .confirmDeliveryOp => .Delivered
  | .confirmReceivedOp => if h = e.deliveryHash then .Completed else .Disputed
  | .claimTimeoutOp => .Claimed
  | .refundOp => .Refunded

/-- Apply an operation, projecting out the updated escrow record. -/
def applyOp (op : EscrowOp) (paused : Bool) (feeRecipient now sender : Nat)
    (e : Escrow) (h : Nat) : Except String Escrow :=
  match op with
  | .confirmDeliveryOp => confirmDelivery paused now sender e h
  | .confirmReceivedOp => (confirmReceived paused feeRecipient sender e h).map (fun r => r.1)
  | .claimTimeoutOp => (claimTimeout paused feeRecipient now sender e).map (fun r => r.1)
  | .refundOp => (refund paused now sender e).map (fun r => r.1)

end FlareGate

open FlareGate Gateway MiniJson

/-!
Part 5: concrete instances evaluated by witnesses and counterexamples.
-/

/-- A delivered escrow of amount 50 (agent 5, provider 7, delivery
digest 5), used to refute the claimed provider-payout formula. -/
def c3ex : Escrow :=
  { id := 1, agent := 5, provider := 7, amount := 50, token := 0, endpoint := "/w",
    deliveryHash := 5, receiptHash := 0, state := .Delivered,
    createdAt := 10, deliveredAt := 20, timeout := 300 }

/-- The §8 scenario escrow: amount 100, delivered with digest 5. -/
def c3wex : Escrow :=
  { id := 2, agent := 5, provider := 7, amount := 100, token := 0, endpoint := "/w",
    deliveryHash := 5, receiptHash := 0, state := .Delivered,
    createdAt := 10, deliveredAt := 20, timeout := 300 }

/-- A registered listing with one priced endpoint (`/data`, 1000 wei). -/
def gwListing : ApiListing :=
  { id := "weather", name := "Weather", description := "",
    providerAddress := "0xProv", baseUrl := "http://localhost:4100",
    endpoints := [⟨"/data", "GET", "1000", "current weather"⟩] }

/-- A ledger escrow still in `Created` with ample amount. -/
def gwEscrowCreated : GwEscrow :=
  { id := 7, agent := "0xA", provider := "0xP", amount := 2000, endpoint := "/data",
    deliveryHash := "", receiptHash := "", state := .Created,
    createdAt := 1, deliveredAt := 0, timeout := 300 }

/-- A ledger escrow already `Completed` (spent admission ticket). -/
def gwEscrowCompleted : GwEscrow :=
  { id := 3, agent := "0xA", provider := "0xP", amount := 2000, endpoint := "/data",
    deliveryHash := "0xh", receiptHash := "0xh", state := .Completed,
    createdAt := 1, deliveredAt := 2, timeout := 300 }

/-- A `Created` ledger escrow whose locked amount (5) is below the
endpoint price (1000). -/
def gwEscrowSmall : GwEscrow :=
  { id := 4, agent := "0xA", provider := "0xP", amount := 5, endpoint := "/data",
    deliveryHash := "", receiptHash := "", state := .Created,
    createdAt := 1, deliveredAt := 0, timeout := 300 }

/-- A concrete ledger-read oracle holding the three escrows above. -/
def gwGetEscrow : Nat → Except GwError GwEscrow := fun i =>
  if i = 7 then .ok gwEscrowCreated
  else if i = 3 then .ok gwEscrowCompleted
  else if i = 4 then .ok gwEscrowSmall
  else .error (.escrowNotFound i)

/-- A listing with one endpoint `/a` priced 7, matched by no `/zzz`
sub-path — exercises the first-endpoint price fallback. -/
def c9listing : ApiListing :=
  { id := "m", name := "", description := "", providerAddress := "0xProv",
    baseUrl := "http://localhost:4200",
    endpoints := [⟨"/a", "GET", "7", ""⟩] }

/-- A listing whose second endpoint `/b` has an empty price while the
first (`/a`) is priced 7. -/
def c10listing : ApiListing :=
  { id := "m2", name := "", description := "", providerAddress := "0xProv",
    baseUrl := "http://localhost:4200",
    endpoints := [⟨"/a", "GET", "7", ""⟩, ⟨"/b", "GET", "", ""⟩] }

/-- A listing with no endpoints at all. -/
def c10empty : ApiListing :=
  { id := "e", name := "", description := "", providerAddress := "0xProv",
    baseUrl := "http://localhost:4300", endpoints := [] }

/-- Outcome of a successful mediated call whose upstream body is the
non-canonically spaced JSON text `"[1, 2]"` (hash function taken as the
identity so the hashed bytes are visible in the header). -/
def c1outcome : ProxyOutcome :=
  proxyProgram (fun s => s) "0xC" "0xW" (.ok gwListing) "/data" (some "7")
    gwGetEscrow (.ok "[1, 2]") (.ok ())

/-- Outcome of a mediated call whose upstream body `"ok"` is not JSON:
`JSON.parse` throws after the delivery hash was already committed. -/
def c1outcomeBad : ProxyOutcome :=
  proxyProgram (fun s => s) "0xC" "0xW" (.ok gwListing) "/data" (some "7")
    gwGetEscrow (.ok "ok") (.ok ())

/-- Helper: with no `X-Escrow-Id` header the proxy program returns the
402 payment demand without calling upstream or the ledger. -/
theorem proxy_no_header (hashFn : String → String) (caddr waddr subPath : String)
    (listing : ApiListing) (g : Nat → Except GwError GwEscrow)
    (u : Except String String) (c : Except GwError Unit) :
    proxyProgram hashFn caddr waddr (.ok listing) subPath none g u c
      = { status := 402, headers := [],
          body := .paymentRequired "Payment Required" (resolvePriceWei listing subPath)
            "C2FLR" (jsOrStr listing.providerAddress waddr) subPath caddr 16
            "Create escrow with createEscrow(provider, endpoint, timeout) and retry with X-Escrow-Id header",
          hashedInput := none, upstreamCalled := false, confirmDeliveryCalled := false } := rfl

/-- Helper: an escrow that is no longer `Created` is rejected with 400
before any upstream or ledger-write call. -/
theorem proxy_wrong_state (hashFn : String → String) (caddr waddr subPath hdr : String)
    (listing : ApiListing) (g : Nat → Except GwError GwEscrow) (escrow : GwEscrow)
    (u : Except String String) (c : Except GwError Unit)
    (hget : g (jsNat hdr) = .ok escrow)
    (hstate : escrow.state ≠ EscrowState.Created) :
    proxyProgram hashFn caddr waddr (.ok listing) subPath (some hdr) g u c
      = { status := 400, headers := [],
          body := .errorMsg ("Escrow #" ++ toString (jsNat hdr)
            ++ " is not in Created state (state: " ++ toString escrow.state.toNum ++ ")"),
          hashedInput := none, upstreamCalled := false, confirmDeliveryCalled := false } := by
  simp only [proxyProgram, hget]
  rw [if_pos hstate]

/-- Helper: a `Created` escrow whose amount is below the resolved price
is rejected with 400 before any upstream or ledger-write call. -/
theorem proxy_insufficient (hashFn : String → String) (caddr waddr subPath hdr : String)
    (listing : ApiListing) (g : Nat → Except GwError GwEscrow) (escrow : GwEscrow)
    (u : Except String String) (c : Except GwError Unit)
    (hget : g (jsNat hdr) = .ok escrow)
    (hstate : escrow.state = EscrowState.Created)
    (hamt : escrow.amount < jsNat (resolvePriceWei listing subPath)) :
    proxyProgram hashFn caddr waddr (.ok listing) subPath (some hdr) g u c
      = { status := 400, headers := [],
          body := .errorMsg ("Escrow amount insufficient. Required: "
            ++ resolvePriceWei listing subPath ++ ", deposited: " ++ toString escrow.amount),
          hashedInput := none, upstreamCalled := false, confirmDeliveryCalled := false } := by
  simp only [proxyProgram, hget]
  rw [if_neg (fun hc => hc hstate), if_pos hamt]

/-- Helper: an admitted request whose upstream fetch fails yields the
502 outcome with url and failure context, without a ledger write. -/
theorem proxy_upstream_error (hashFn : String → String)
    (caddr waddr subPath hdr errStr : String)
    (listing : ApiListing) (g : Nat → Except GwError GwEscrow) (escrow : GwEscrow)
    (c : Except GwError Unit)
    (hget : g (jsNat hdr) = .ok escrow)
    (hstate : escrow.state = EscrowState.Created)
    (hamt : ¬ escrow.amount < jsNat (resolvePriceWei listing subPath)) :
    proxyProgram hashFn caddr waddr (.ok listing) subPath (some hdr) g (.error errStr) c
      = { status := 502, headers := [],
          body := .errorMsg ("API call failed: " ++ (listing.baseUrl ++ subPath)
            ++ " — " ++ errStr),
          hashedInput := none, upstreamCalled := true, confirmDeliveryCalled := false } := by
  simp only [proxyProgram, hget]
  rw [if_neg (fun hc => hc hstate), if_neg hamt]
  rfl

/-- Helper: an admitted request is always forwarded upstream, whatever
the upstream and ledger-write calls then return. -/
theorem proxy_admitted_forwards (hashFn : String → String) (caddr waddr subPath hdr : String)
    (listing : ApiListing) (g : Nat → Except GwError GwEscrow) (escrow : GwEscrow)
    (u : Except String String) (c : Except GwError Unit)
    (hget : g (jsNat hdr) = .ok escrow)
    (hstate : escrow.state = EscrowState.Created)
    (hamt : ¬ escrow.amount < jsNat (resolvePriceWei listing subPath)) :
    (proxyProgram hashFn caddr waddr (.ok listing) subPath (some hdr) g u c).upstreamCalled
      = true := by
  simp only [proxyProgram, hget]
  rw [if_neg (fun hc => hc hstate), if_neg hamt]
  cases u with
  | error errStr => rfl
  | ok responseBody =>
    cases c with
    | error e => rfl
    | ok _ =>
      cases hp : MiniJson.Json.parse responseBody <;> simp [hp]

/-- Helper: an admitted request whose ledger write fails yields the 500
outcome carrying the failing method and cause; the hash was computed
over the raw upstream body and the write was attempted. -/
theorem proxy_confirm_error (hashFn : String → String)
    (caddr waddr subPath hdr raw m r : String)
    (listing : ApiListing) (g : Nat → Except GwError GwEscrow) (escrow : GwEscrow)
    (hget : g (jsNat hdr) = .ok escrow)
    (hstate : escrow.state = EscrowState.Created)
    (hamt : ¬ escrow.amount < jsNat (resolvePriceWei listing subPath)) :
    proxyProgram hashFn caddr waddr (.ok listing) subPath (some hdr) g (.ok raw)
        (.error (.contractCallFailed m r))
      = { status := 500, headers := [],
          body := .errorMsg ("Contract call failed: " ++ m ++ " — " ++ r),
          hashedInput := some raw, upstreamCalled := true,
          confirmDeliveryCalled := true } := by
  simp only [proxyProgram, hget]
  rw [if_neg (fun hc => hc hstate), if_neg hamt]
  rfl

/-- Helper: payouts of the `_releaseFunds` transfer list, read off per
recipient (provider and fee recipient assumed distinct). -/
theorem paidTo_release (amount provider feeRecipient : Nat)
    (hfr : feeRecipient ≠ provider) :
    paidTo ((⟨provider, amount - amount * FEE_BPS / 10000⟩ : Transfer) ::
        (if amount * FEE_BPS / 10000 > 0 then
          [⟨feeRecipient, amount * FEE_BPS / 10000⟩] else [])) provider
      = amount - amount * FEE_BPS / 10000
    ∧ paidTo ((⟨provider, amount - amount * FEE_BPS / 10000⟩ : Transfer) ::
        (if amount * FEE_BPS / 10000 > 0 then
          [⟨feeRecipient, amount * FEE_BPS / 10000⟩] else [])) feeRecipient
      = amount * FEE_BPS / 10000 := by
  constructor
  · by_cases hz : amount * FEE_BPS / 10000 > 0
    all_goals simp [paidTo, hz, hfr, Ne.symm hfr]
  · by_cases hz : amount * FEE_BPS / 10000 > 0
    all_goals simp [paidTo, hz, hfr, Ne.symm hfr]
    all_goals omega

/-- C2: for every existing, unpaused escrow and every operation in
`{confirmDelivery, confirmReceived, claimTimeout, refund}` invoked by
the operation's designated caller: if the escrow's state is not the
source state of the operation's row in the §4.1 table, the call reverts
with the wrong-state reason (`"Invalid state"`), leaving the record
unchanged (a revert changes nothing); if it is the row's source state
and the row's timeout guard holds, the call succeeds and the record
ends exactly in the row's target state.  The bound hypotheses say the
`uint256` additions and the fee multiplication do not overflow. -/
theorem c2_state_machine_totality (op : EscrowOp) (e : Escrow) (feeRecipient now h : Nat)
    (hid : e.id ≠ 0)
    (hfee : e.amount * FEE_BPS < UMAX)
    (hct : e.createdAt + e.timeout < UMAX)
    (hdt : e.deliveredAt + e.timeout < UMAX) :
    (e.state ≠ tableFrom op →
      applyOp op false feeRecipient now (rowCaller e op) e h = .error "Invalid state")
    ∧ (e.state = tableFrom op → rowTimeoutGuard op now e →
      ∃ e2, applyOp op false feeRecipient now (rowCaller e op) e h = .ok e2
        ∧ e2.state = rowTarget op e h) := by
  constructor
  · intro hs
    cases op <;>
      simp_all [applyOp, confirmDelivery, confirmReceived, claimTimeout, refund,
        tableFrom, rowCaller, Except.map]
  · intro hs hg
    cases op
    case confirmDeliveryOp =>
      refine ⟨{e with deliveryHash := h, state := .Delivered, deliveredAt := now}, ?_, rfl⟩
      simp_all [applyOp, confirmDelivery, tableFrom, rowCaller]
    case confirmReceivedOp =>
      by_cases hmatch : h = e.deliveryHash
      · refine ⟨{e with receiptHash := h, state := .Completed}, ?_, ?_⟩
        · simp_all [applyOp, confirmReceived, tableFrom, rowCaller, releaseFunds,
            Except.map, not_le.mpr hfee]
        · simp [rowTarget, hmatch]
      · refine ⟨{e with receiptHash := h, state := .Disputed}, ?_, ?_⟩
        · simp_all [applyOp, confirmReceived, tableFrom, rowCaller, Except.map]
        · simp [rowTarget, hmatch]
    case claimTimeoutOp =>
      refine ⟨{e with state := .Claimed}, ?_, rfl⟩
      have hg' : now > e.deliveredAt + e.timeout := hg
      simp_all [applyOp, claimTimeout, tableFrom, rowCaller, rowTimeoutGuard,
        releaseFunds, Except.map, not_le.mpr hfee, not_le.mpr hdt]
    case refundOp =>
      refine ⟨{e with state := .Refunded}, ?_, rfl⟩
      have hg' : now > e.createdAt + e.timeout := hg
      simp_all [applyOp, refund, tableFrom, rowCaller, rowTimeoutGuard, Except.map,
        not_le.mpr hct]

/-- Witness for C2: a concrete `Created` escrow with `refund` called by
its agent after the deadline satisfies every hypothesis and lands in
`Refunded`. -/
theorem c2_state_machine_totality_witness :
    let e : Escrow :=
      { id := 1, agent := 5, provider := 7, amount := 100, token := 0, endpoint := "/w",
        deliveryHash := 0, receiptHash := 0, state := .Created,
        createdAt := 1000, deliveredAt := 0, timeout := 300 }
    (e.id ≠ 0 ∧ e.amount * FEE_BPS < UMAX ∧ e.createdAt + e.timeout < UMAX
        ∧ e.deliveredAt + e.timeout < UMAX)
    ∧ ((e.state ≠ tableFrom .refundOp →
        applyOp .refundOp false 9 1301 (rowCaller e .refundOp) e 0 = .error "Invalid state")
      ∧ (e.state = tableFrom .refundOp → rowTimeoutGuard .refundOp 1301 e →
        ∃ e2, applyOp .refundOp false 9 1301 (rowCaller e .refundOp) e 0 = .ok e2
          ∧ e2.state = rowTarget .refundOp e 0)) :=
  ⟨⟨by decide, by decide, by decide, by decide⟩,
    c2_state_machine_totality .refundOp _ 9 1301 0 (by decide) (by decide) (by decide) (by decide)⟩

/-- C3 counterexample: at `amount = 50` the implementation pays the
provider the full 50 (the fee floors to 0), while the claimed formula
`amount * (10000 - feeBps) / 10000` gives 49 under floor division, and
the claim's two payout formulas sum to 49, not to the amount.  So the
claim as stated is false at this input. -/
theorem c3_fee_formula_counterexample :
    (confirmReceived false 9 5 c3ex 5).map (fun r => paidTo r.2.2 c3ex.provider)
      = .ok 50
    ∧ c3ex.amount * (10000 - FEE_BPS) / 10000 = 49
    ∧ c3ex.amount * (10000 - FEE_BPS) / 10000
        + c3ex.amount * FEE_BPS / 10000 = 49
    ∧ (50 : Nat) ≠ 49 := by
  refine ⟨?_, by decide, by decide, by decide⟩
  rfl

/-- C3 amended: on `Completed` (via `confirmReceived` with the matching
digest) and on `Claimed` (via `claimTimeout`), the fee recipient
receives `amount * feeBps / 10000` (floor, `feeBps = FEE_BPS = 100`),
the provider receives the complement `amount - amount * feeBps / 10000`
— which equals the spec's `amount * (10000 - feeBps) / 10000` exactly
when `100 ∣ amount` — and the two payouts always sum exactly to
`amount`, so no dust is lost. -/
theorem c3_fee_split (e : Escrow) (feeRecipient sender now h : Nat)
    (hid : e.id ≠ 0) (hfee : e.amount * FEE_BPS < UMAX)
    (hfr : feeRecipient ≠ e.provider)
    (hdt : e.deliveredAt + e.timeout < UMAX) :
    (e.state = .Delivered → sender = e.agent → h = e.deliveryHash →
      ∃ e2 ts, confirmReceived false feeRecipient sender e h = .ok (e2, true, ts)
        ∧ paidTo ts e.provider = e.amount - e.amount * FEE_BPS / 10000
        ∧ paidTo ts feeRecipient = e.amount * FEE_BPS / 10000
        ∧ paidTo ts e.provider + paidTo ts feeRecipient = e.amount
        ∧ (100 ∣ e.amount →
            paidTo ts e.provider = e.amount * (10000 - FEE_BPS) / 10000))
    ∧ (e.state = .Delivered → sender = e.provider → now > e.deliveredAt + e.timeout →
      ∃ e2 ts, claimTimeout false feeRecipient now sender e = .ok (e2, ts)
        ∧ paidTo ts e.provider = e.amount - e.amount * FEE_BPS / 10000
        ∧ paidTo ts feeRecipient = e.amount * FEE_BPS / 10000
        ∧ paidTo ts e.provider + paidTo ts feeRecipient = e.amount
        ∧ (100 ∣ e.amount →
            paidTo ts e.provider = e.amount * (10000 - FEE_BPS) / 10000)) := by
  have key : ∀ ts, ts = (⟨e.provider, e.amount - e.amount * FEE_BPS / 10000⟩ :
        Transfer) :: (if e.amount * FEE_BPS / 10000 > 0 then
          [⟨feeRecipient, e.amount * FEE_BPS / 10000⟩] else []) →
      paidTo ts e.provider = e.amount - e.amount * FEE_BPS / 10000
      ∧ paidTo ts feeRecipient = e.amount * FEE_BPS / 10000
      ∧ paidTo ts e.provider + paidTo ts feeRecipient = e.amount
      ∧ (100 ∣ e.amount →
          paidTo ts e.provider = e.amount * (10000 - FEE_BPS) / 10000) := by
    intro ts hts
    subst hts
    have hle : e.amount * FEE_BPS / 10000 ≤ e.amount := by
      calc e.amount * FEE_BPS / 10000 ≤ e.amount * FEE_BPS / FEE_BPS :=
            Nat.div_le_div_left (by norm_num [FEE_BPS]) (by norm_num [FEE_BPS])
        _ = e.amount := Nat.mul_div_cancel _ (by norm_num [FEE_BPS])
    have hprov : paidTo ((⟨e.provider, e.amount - e.amount * FEE_BPS / 10000⟩ :
          Transfer) :: (if e.amount * FEE_BPS / 10000 > 0 then
            [⟨feeRecipient, e.amount * FEE_BPS / 10000⟩] else [])) e.provider
        = e.amount - e.amount * FEE_BPS / 10000 := by
      by_cases hz : e.amount * FEE_BPS / 10000 > 0 <;>
        simp [paidTo, hz, hfr, Ne.symm hfr]
    have hfeeP : paidTo ((⟨e.provider, e.amount - e.amount * FEE_BPS / 10000⟩ :
          Transfer) :: (if e.amount * FEE_BPS / 10000 > 0 then
            [⟨feeRecipient, e.amount * FEE_BPS / 10000⟩] else [])) feeRecipient
        = e.amount * FEE_BPS / 10000 := by
      by_cases hz : e.amount * FEE_BPS / 10000 > 0
      all_goals simp [paidTo, hz, hfr, Ne.symm hfr]
      all_goals omega
    refine ⟨hprov, hfeeP, ?_, ?_⟩
    · rw [hprov, hfeeP]; omega
    · intro hdvd
      obtain ⟨k, hk⟩ := hdvd
      rw [hprov, hk]
      simp only [FEE_BPS]
      omega
  constructor
  · intro hs hsender hmatch
    refine ⟨{e with receiptHash := h, state := .Completed}, _, ?_, key _ rfl⟩
    simp_all [confirmReceived, releaseFunds, not_le.mpr hfee]
  · intro hs hsender hg
    refine ⟨{e with state := .Claimed}, _, ?_, key _ rfl⟩
    simp_all [claimTimeout, releaseFunds, not_le.mpr hfee, not_le.mpr hdt]

/-- Witness for C3 (amended): the scenario escrow of amount 100 —
provider is paid 99, fee recipient 1, summing to 100. -/
theorem c3_fee_split_witness :
    (c3wex.id ≠ 0 ∧ c3wex.amount * FEE_BPS < UMAX ∧ (9 : Nat) ≠ c3wex.provider
        ∧ c3wex.deliveredAt + c3wex.timeout < UMAX)
    ∧ (∃ e2 ts, confirmReceived false 9 5 c3wex 5 = .ok (e2, true, ts)
        ∧ paidTo ts c3wex.provider = 99 ∧ paidTo ts 9 = 1
        ∧ paidTo ts c3wex.provider + paidTo ts 9 = 100) := by
  refine ⟨⟨by decide, by decide, by decide, by decide⟩, ?_⟩
  obtain ⟨e2, ts, hok, h1, h2, h3, -⟩ :=
    (c3_fee_split c3wex 9 5 321 5 (by decide) (by decide) (by decide) (by decide)).1
      rfl rfl rfl
  exact ⟨e2, ts, hok, by simpa using h1, by simpa using h2, by simpa using h3⟩

/-- C4: from state `Delivered`, `confirmReceived` called by the agent
records `receiptHash := h`; if `h` equals the stored `deliveryHash` the
state becomes `Completed` and the locked amount is released in the
configured basis-point split (fee `amount * FEE_BPS / 10000` to the fee
recipient, the rest to the provider, summing to `amount`); if `h`
differs, the state becomes `Disputed`, the transfer list is empty (no
funds move), and the resulting record keeps the original
`deliveryHash` with `receiptHash = h` stored beside it as evidence. -/
theorem c4_confirm_received_behavior (e : Escrow) (feeRecipient sender h : Nat)
    (hid : e.id ≠ 0) (hstate : e.state = .Delivered) (hsender : sender = e.agent)
    (hfee : e.amount * FEE_BPS < UMAX) (hfr : feeRecipient ≠ e.provider) :
    (h = e.deliveryHash →
      ∃ ts, confirmReceived false feeRecipient sender e h
          = .ok ({e with receiptHash := h, state := .Completed}, true, ts)
        ∧ paidTo ts e.provider + paidTo ts feeRecipient = e.amount
        ∧ paidTo ts feeRecipient = e.amount * FEE_BPS / 10000
        ∧ paidTo ts e.provider = e.amount - e.amount * FEE_BPS / 10000)
    ∧ (h ≠ e.deliveryHash →
      confirmReceived false feeRecipient sender e h
        = .ok ({e with receiptHash := h, state := .Disputed}, false, [])) := by
  have hle : e.amount * FEE_BPS / 10000 ≤ e.amount := by
    simp only [FEE_BPS]; omega
  obtain ⟨hp, hf⟩ := paidTo_release e.amount e.provider feeRecipient hfr
  constructor
  · intro hmatch
    refine ⟨(⟨e.provider, e.amount - e.amount * FEE_BPS / 10000⟩ : Transfer) ::
        (if e.amount * FEE_BPS / 10000 > 0 then
          [⟨feeRecipient, e.amount * FEE_BPS / 10000⟩] else []), ?_, ?_, hf, hp⟩
    · simp_all [confirmReceived, releaseFunds, not_le.mpr hfee]
    · rw [hp, hf]; omega
  · intro hmm
    simp_all [confirmReceived]

/-- Witness for C4: on the amount-100 delivered escrow, confirming with
the matching digest 5 completes and splits 99/1; confirming with 6
disputes with no transfer. -/
theorem c4_confirm_received_behavior_witness :
    (c3wex.id ≠ 0 ∧ c3wex.state = .Delivered ∧ (5 : Nat) = c3wex.agent
        ∧ c3wex.amount * FEE_BPS < UMAX ∧ (9 : Nat) ≠ c3wex.provider)
    ∧ (∃ ts, confirmReceived false 9 5 c3wex 5
          = .ok ({c3wex with receiptHash := 5, state := .Completed}, true, ts)
        ∧ paidTo ts c3wex.provider + paidTo ts 9 = c3wex.amount)
    ∧ confirmReceived false 9 5 c3wex 6
        = .ok ({c3wex with receiptHash := 6, state := .Disputed}, false, []) := by
  refine ⟨⟨by decide, by decide, by decide, by decide, by decide⟩, ?_, ?_⟩
  · obtain ⟨ts, hok, hsum, -, -⟩ :=
      (c4_confirm_received_behavior c3wex 9 5 5 (by decide) (by decide) rfl
        (by decide) (by decide)).1 (by decide)
    exact ⟨ts, hok, hsum⟩
  · exact (c4_confirm_received_behavior c3wex 9 5 6 (by decide) (by decide) rfl
      (by decide) (by decide)).2 (by decide)

/-- C6: with an existing, unpaused escrow, `refund` succeeds exactly
when called by the agent, from `Created`, strictly after
`createdAt + timeout`, and then pays the agent the full locked amount
with no fee; `claimTimeout` succeeds exactly when called by the
provider, from `Delivered`, strictly after `deliveredAt + timeout`.
At or before the deadline both calls revert (no state change). -/
theorem c6_timeout_exclusivity (e : Escrow) (feeRecipient now sender : Nat)
    (hid : e.id ≠ 0) (hct : e.createdAt + e.timeout < UMAX)
    (hdt : e.deliveredAt + e.timeout < UMAX) (hfee : e.amount * FEE_BPS < UMAX) :
    ((∃ r, refund false now sender e = .ok r) ↔
      sender = e.agent ∧ e.state = .Created ∧ now > e.createdAt + e.timeout)
    ∧ (∀ e2 ts, refund false now sender e = .ok (e2, ts) →
        e2.state = .Refunded ∧ ts = [⟨e.agent, e.amount⟩])
    ∧ ((∃ r, claimTimeout false feeRecipient now sender e = .ok r) ↔
      sender = e.provider ∧ e.state = .Delivered ∧ now > e.deliveredAt + e.timeout)
    ∧ (∀ e2 ts, claimTimeout false feeRecipient now sender e = .ok (e2, ts) →
        e2.state = .Claimed) := by
  have hct' : ¬ e.createdAt + e.timeout ≥ UMAX := not_le.mpr hct
  have hdt' : ¬ e.deliveredAt + e.timeout ≥ UMAX := not_le.mpr hdt
  have hfee' : ¬ e.amount * FEE_BPS ≥ UMAX := not_le.mpr hfee
  refine ⟨?_, ?_, ?_, ?_⟩
  · constructor
    · rintro ⟨r, hr⟩
      simp only [refund] at hr
      split_ifs at hr
      all_goals first
        | exact absurd ‹false = true› (by simp)
        | exact Except.noConfusion hr
        | exact ⟨not_not.mp ‹¬ sender ≠ e.agent›,
            not_not.mp ‹¬ e.state ≠ EscrowState.Created›,
            ‹now > e.createdAt + e.timeout›⟩
    · rintro ⟨hsend, hstate, htime⟩
      refine ⟨({e with state := .Refunded}, [⟨e.agent, e.amount⟩]), ?_⟩
      simp only [refund]
      rw [if_neg (fun hc => Bool.false_ne_true hc), if_neg hid,
        if_neg (fun hc => hc hsend), if_neg (fun hc => hc hstate),
        if_neg hct', if_neg (fun hc => hc htime)]
  · intro e2 ts hok
    simp only [refund] at hok
    split_ifs at hok
    all_goals first
      | exact absurd ‹false = true› (by simp)
      | exact Except.noConfusion hok
      | (injection hok with h; injection h with h1 h2;
         exact ⟨by rw [← h1], by rw [← h2]⟩)
  · constructor
    · rintro ⟨r, hr⟩
      simp only [claimTimeout, releaseFunds] at hr
      split_ifs at hr
      all_goals first
        | exact absurd ‹false = true› (by simp)
        | exact Except.noConfusion hr
        | exact ⟨not_not.mp ‹¬ sender ≠ e.provider›,
            not_not.mp ‹¬ e.state ≠ EscrowState.Delivered›,
            ‹now > e.deliveredAt + e.timeout›⟩
    · rintro ⟨hsend, hstate, htime⟩
      refine ⟨({e with state := .Claimed},
        (⟨e.provider, e.amount - e.amount * FEE_BPS / 10000⟩ : Transfer) ::
          (if e.amount * FEE_BPS / 10000 > 0 then
            [⟨feeRecipient, e.amount * FEE_BPS / 10000⟩] else [])), ?_⟩
      simp only [claimTimeout, releaseFunds]
      rw [if_neg (fun hc => Bool.false_ne_true hc), if_neg hid,
        if_neg (fun hc => hc hsend), if_neg (fun hc => hc hstate),
        if_neg hdt', if_neg (fun hc => hc htime), if_neg hfee']
  · intro e2 ts hok
    simp only [claimTimeout, releaseFunds] at hok
    split_ifs at hok
    all_goals first
      | exact absurd ‹false = true› (by simp)
      | exact Except.noConfusion hok
      | (injection hok with h; injection h with h1 h2; rw [← h1])

/-- Witness for C6: the §8 scenario — escrow with `timeout = 300`
created at 1000 and never delivered: `refund` at `t = 1299` (299s
after creation) is rejected, at `t = 1301` it succeeds and returns the
full amount to the agent. -/
theorem c6_timeout_exclusivity_witness :
    let e : Escrow :=
      { id := 1, agent := 5, provider := 7, amount := 100, token := 0, endpoint := "/w",
        deliveryHash := 0, receiptHash := 0, state := .Created,
        createdAt := 1000, deliveredAt := 0, timeout := 300 }
    (e.id ≠ 0 ∧ e.createdAt + e.timeout < UMAX ∧ e.deliveredAt + e.timeout < UMAX
        ∧ e.amount * FEE_BPS < UMAX)
    ∧ (¬ ∃ r, refund false 1299 5 e = .ok r)
    ∧ (∃ r, refund false 1301 5 e = .ok r) := by
  intro e
  refine ⟨⟨by decide, by decide, by decide, by decide⟩, ?_, ?_⟩
  · intro hr
    have h := (c6_timeout_exclusivity e 9 1299 5 (by decide) (by decide) (by decide)
      (by decide)).1.mp hr
    have : (1299 : Nat) > 1300 := by simpa [e] using h.2.2
    omega
  · exact (c6_timeout_exclusivity e 9 1301 5 (by decide) (by decide) (by decide)
      (by decide)).1.mpr ⟨rfl, rfl, by decide⟩

/-- C5: for every proxy request — with the listing resolved — (a) with
no `X-Escrow-Id` header the gateway answers 402 with the structured
payment demand (price, provider, endpoint, contract address, chain id,
instructions) and neither forwards upstream nor touches the ledger;
(b) if the referenced escrow is not in `Created` it answers 400 with
the wrong-state error; (c) if the referenced `Created` escrow's amount
is below the resolved price it answers 400 with the
insufficient-amount error — in cases (b) and (c) likewise without
forwarding upstream or writing to the ledger. -/
theorem c5_admission_gate (hashFn : String → String) (caddr waddr subPath : String)
    (listing : ApiListing) (g : Nat → Except GwError GwEscrow)
    (u : Except String String) (c : Except GwError Unit) :
    (proxyProgram hashFn caddr waddr (.ok listing) subPath none g u c
      = { status := 402, headers := [],
          body := .paymentRequired "Payment Required" (resolvePriceWei listing subPath)
            "C2FLR" (jsOrStr listing.providerAddress waddr) subPath caddr 16
            "Create escrow with createEscrow(provider, endpoint, timeout) and retry with X-Escrow-Id header",
          hashedInput := none, upstreamCalled := false, confirmDeliveryCalled := false })
    ∧ (∀ hdr escrow, g (jsNat hdr) = .ok escrow →
        escrow.state ≠ EscrowState.Created →
        proxyProgram hashFn caddr waddr (.ok listing) subPath (some hdr) g u c
          = { status := 400, headers := [],
              body := .errorMsg ("Escrow #" ++ toString (jsNat hdr)
                ++ " is not in Created state (state: " ++ toString escrow.state.toNum ++ ")"),
              hashedInput := none, upstreamCalled := false, confirmDeliveryCalled := false })
    ∧ (∀ hdr escrow, g (jsNat hdr) = .ok escrow →
        escrow.state = EscrowState.Created →
        escrow.amount < jsNat (resolvePriceWei listing subPath) →
        proxyProgram hashFn caddr waddr (.ok listing) subPath (some hdr) g u c
          = { status := 400, headers := [],
              body := .errorMsg ("Escrow amount insufficient. Required: "
                ++ resolvePriceWei listing subPath ++ ", deposited: " ++ toString escrow.amount),
              hashedInput := none, upstreamCalled := false, confirmDeliveryCalled := false }) := by
  refine ⟨proxy_no_header hashFn caddr waddr subPath listing g u c, ?_, ?_⟩
  · intro hdr escrow hget hstate
    exact proxy_wrong_state hashFn caddr waddr subPath hdr listing g escrow u c hget hstate
  · intro hdr escrow hget hstate hamt
    exact proxy_insufficient hashFn caddr waddr subPath hdr listing g escrow u c
      hget hstate hamt

/-- Witness for C5: on the concrete listing and ledger — no header
gives 402; the `Completed` escrow 3 gives 400 wrong-state; the
underfunded `Created` escrow 4 gives 400 insufficient. -/
theorem c5_admission_gate_witness :
    (gwGetEscrow (jsNat "3") = .ok gwEscrowCompleted
      ∧ gwEscrowCompleted.state ≠ EscrowState.Created)
    ∧ (gwGetEscrow (jsNat "4") = .ok gwEscrowSmall
      ∧ gwEscrowSmall.state = EscrowState.Created
      ∧ gwEscrowSmall.amount < jsNat (resolvePriceWei gwListing "/data"))
    ∧ (proxyProgram (fun s => s) "0xC" "0xW" (.ok gwListing) "/data" none gwGetEscrow
        (.ok "1") (.ok ())).status = 402
    ∧ (proxyProgram (fun s => s) "0xC" "0xW" (.ok gwListing) "/data" (some "3") gwGetEscrow
        (.ok "1") (.ok ())).status = 400
    ∧ (proxyProgram (fun s => s) "0xC" "0xW" (.ok gwListing) "/data" (some "4") gwGetEscrow
        (.ok "1") (.ok ())).status = 400 := by
  refine ⟨⟨rfl, by decide⟩, ⟨rfl, rfl, by decide⟩, ?_, ?_, ?_⟩
  · rw [(c5_admission_gate (fun s => s) "0xC" "0xW" "/data" gwListing gwGetEscrow
      (.ok "1") (.ok ())).1]
  · rw [(c5_admission_gate (fun s => s) "0xC" "0xW" "/data" gwListing gwGetEscrow
      (.ok "1") (.ok ())).2.1 "3" gwEscrowCompleted rfl (by decide)]
  · rw [(c5_admission_gate (fun s => s) "0xC" "0xW" "/data" gwListing gwGetEscrow
      (.ok "1") (.ok ())).2.2 "4" gwEscrowSmall rfl rfl (by decide)]

/-- C7: an admitted request (escrow resolved, in `Created`, amount
sufficient) whose forward to the upstream provider fails is answered
502 with the target url and failure context in the body, and no
`confirmDelivery` ledger write is ever made (`confirmDeliveryCalled`
is false, and nothing was hashed), so the escrow is left untouched in
`Created` and the caller may retry with the same id. -/
theorem c7_upstream_failure (hashFn : String → String)
    (caddr waddr subPath hdr errStr : String)
    (listing : ApiListing) (g : Nat → Except GwError GwEscrow) (escrow : GwEscrow)
    (c : Except GwError Unit)
    (hget : g (jsNat hdr) = .ok escrow)
    (hstate : escrow.state = EscrowState.Created)
    (hamt : ¬ escrow.amount < jsNat (resolvePriceWei listing subPath)) :
    proxyProgram hashFn caddr waddr (.ok listing) subPath (some hdr) g (.error errStr) c
      = { status := 502, headers := [],
          body := .errorMsg ("API call failed: " ++ (listing.baseUrl ++ subPath)
            ++ " — " ++ errStr),
          hashedInput := none, upstreamCalled := true, confirmDeliveryCalled := false } :=
  proxy_upstream_error hashFn caddr waddr subPath hdr errStr listing g escrow c
    hget hstate hamt

/-- Witness for C7: the well-funded `Created` escrow 7 with a failed
upstream fetch yields the 502 outcome with no ledger write. -/
theorem c7_upstream_failure_witness :
    (gwGetEscrow (jsNat "7") = .ok gwEscrowCreated
      ∧ gwEscrowCreated.state = EscrowState.Created
      ∧ ¬ gwEscrowCreated.amount < jsNat (resolvePriceWei gwListing "/data"))
    ∧ proxyProgram (fun s => s) "0xC" "0xW" (.ok gwListing) "/data" (some "7") gwGetEscrow
        (.error "fetch failed: ECONNREFUSED") (.ok ())
      = { status := 502, headers := [],
          body := .errorMsg ("API call failed: http://localhost:4100/data — fetch failed: ECONNREFUSED"),
          hashedInput := none, upstreamCalled := true, confirmDeliveryCalled := false } := by
  refine ⟨⟨rfl, rfl, by decide⟩, ?_⟩
  have h := c7_upstream_failure (fun s => s) "0xC" "0xW" "/data" "7"
    "fetch failed: ECONNREFUSED" gwListing gwGetEscrow gwEscrowCreated (.ok ())
    rfl rfl (by decide)
  simpa using h

/-- C9: when no listed endpoint's path is a prefix of the requested
sub-path, the gateway does not reject: the first listed endpoint's
(nonempty) price becomes the admission price — it appears as the price
of the 402 demand, drives the insufficient-amount check (under it, 400),
and a `Created` escrow meeting it is forwarded upstream. -/
theorem c9_fallback_price (hashFn : String → String) (caddr waddr subPath : String)
    (listing : ApiListing) (first : ApiEndpoint) (rest : List ApiEndpoint)
    (g : Nat → Except GwError GwEscrow) (u : Except String String) (c : Except GwError Unit)
    (hnone : listing.endpoints.find? (fun ep => strStartsWith subPath ep.path) = none)
    (hends : listing.endpoints = first :: rest)
    (hne : first.priceWei ≠ "") :
    resolvePriceWei listing subPath = first.priceWei
    ∧ ((proxyProgram hashFn caddr waddr (.ok listing) subPath none g u c).body
        = .paymentRequired "Payment Required" first.priceWei "C2FLR"
            (jsOrStr listing.providerAddress waddr) subPath caddr 16
            "Create escrow with createEscrow(provider, endpoint, timeout) and retry with X-Escrow-Id header")
    ∧ (∀ hdr escrow, g (jsNat hdr) = .ok escrow →
        escrow.state = EscrowState.Created →
        escrow.amount < jsNat first.priceWei →
        (proxyProgram hashFn caddr waddr (.ok listing) subPath (some hdr) g u c).status
          = 400)
    ∧ (∀ hdr escrow, g (jsNat hdr) = .ok escrow →
        escrow.state = EscrowState.Created →
        ¬ escrow.amount < jsNat first.priceWei →
        (proxyProgram hashFn caddr waddr (.ok listing) subPath (some hdr) g u c).upstreamCalled
          = true) := by
  have hprice : resolvePriceWei listing subPath = first.priceWei := by
    have hnone' := hnone
    rw [hends] at hnone'
    simp [resolvePriceWei, hends, hnone', jsOrStr, hne]
  refine ⟨hprice, ?_, ?_, ?_⟩
  · rw [proxy_no_header hashFn caddr waddr subPath listing g u c]
    rw [hprice]
  · intro hdr escrow hget hstate hamt
    have hamt' : escrow.amount < jsNat (resolvePriceWei listing subPath) := by
      rw [hprice]; exact hamt
    rw [proxy_insufficient hashFn caddr waddr subPath hdr listing g escrow u c
      hget hstate hamt']
  · intro hdr escrow hget hstate hamt
    have hamt' : ¬ escrow.amount < jsNat (resolvePriceWei listing subPath) := by
      rw [hprice]; exact hamt
    exact proxy_admitted_forwards hashFn caddr waddr subPath hdr listing g escrow u c
      hget hstate hamt'

/-- Witness for C9: on `c9listing` with sub-path `/zzz` (no endpoint
matches) the price is the first endpoint's `"7"`; the underfunded
escrow 4 (amount 5) is rejected 400 and the funded escrow 7 is
forwarded. -/
theorem c9_fallback_price_witness :
    (c9listing.endpoints.find? (fun ep => strStartsWith "/zzz" ep.path) = none
      ∧ c9listing.endpoints = [⟨"/a", "GET", "7", ""⟩]
      ∧ ("7" : String) ≠ "")
    ∧ resolvePriceWei c9listing "/zzz" = "7"
    ∧ (proxyProgram (fun s => s) "0xC" "0xW" (.ok c9listing) "/zzz" (some "4") gwGetEscrow
        (.ok "1") (.ok ())).status = 400
    ∧ (proxyProgram (fun s => s) "0xC" "0xW" (.ok c9listing) "/zzz" (some "7") gwGetEscrow
        (.ok "1") (.ok ())).upstreamCalled = true := by
  have h := c9_fallback_price (fun s => s) "0xC" "0xW" "/zzz" c9listing
    ⟨"/a", "GET", "7", ""⟩ [] gwGetEscrow (.ok "1") (.ok ())
    rfl rfl (by decide)
  exact ⟨⟨rfl, rfl, by decide⟩, h.1,
    h.2.2.1 "4" gwEscrowSmall rfl rfl (by decide),
    h.2.2.2 "7" gwEscrowCreated rfl rfl (by decide)⟩

/-- C10 counterexample: on `c10listing`, sub-path `/b/x` matches the
listed endpoint `/b`, whose price is empty ("no price") — yet the
admission price resolves to the FIRST endpoint's `"7"`, not to the
claimed default `"0"`. -/
theorem c10_price_default_counterexample :
    c10listing.endpoints.find? (fun ep => strStartsWith "/b/x" ep.path)
      = some ⟨"/b", "GET", "", ""⟩
    ∧ resolvePriceWei c10listing "/b/x" = "7"
    ∧ ("7" : String) ≠ "0" := ⟨rfl, rfl, by decide⟩

/-- C10 amended: the admission price defaults to `"0"` exactly when the
matched endpoint yields no price AND the first listed endpoint yields
none either (in particular when the endpoints list is empty); and
whenever the resolved price is `"0"`, the insufficient-amount check
(`escrow.amount < BigInt("0")`) can never reject, so every `Created`
escrow is admitted and forwarded upstream regardless of its amount. -/
theorem c10_price_zero_admits_all (hashFn : String → String)
    (caddr waddr subPath : String) (listing : ApiListing)
    (g : Nat → Except GwError GwEscrow) (u : Except String String)
    (c : Except GwError Unit) :
    (listing.endpoints = [] → resolvePriceWei listing subPath = "0")
    ∧ ((match listing.endpoints.find? (fun ep => strStartsWith subPath ep.path) with
        | some ep => ep.priceWei | none => "") = "" →
       (match listing.endpoints.head? with
        | some ep => ep.priceWei | none => "") = "" →
       resolvePriceWei listing subPath = "0")
    ∧ (resolvePriceWei listing subPath = "0" →
       ∀ hdr escrow, g (jsNat hdr) = .ok escrow →
         escrow.state = EscrowState.Created →
         (proxyProgram hashFn caddr waddr (.ok listing) subPath (some hdr) g u c).upstreamCalled
           = true) := by
  refine ⟨?_, ?_, ?_⟩
  · intro hends
    simp [resolvePriceWei, hends, jsOrStr]
  · intro h1 h2
    simp [resolvePriceWei, jsOrStr, h1, h2]
  · intro hz hdr escrow hget hstate
    have hamt : ¬ escrow.amount < jsNat (resolvePriceWei listing subPath) := by
      rw [hz]
      have : jsNat "0" = 0 := rfl
      omega
    exact proxy_admitted_forwards hashFn caddr waddr subPath hdr listing g escrow u c
      hget hstate hamt

/-- Witness for C10 (amended): the endpoint-less listing resolves price
`"0"`, and the `Created` escrow 7 is forwarded upstream. -/
theorem c10_price_zero_admits_all_witness :
    c10empty.endpoints = []
    ∧ resolvePriceWei c10empty "/x" = "0"
    ∧ gwGetEscrow (jsNat "7") = .ok gwEscrowCreated
    ∧ gwEscrowCreated.state = EscrowState.Created
    ∧ (proxyProgram (fun s => s) "0xC" "0xW" (.ok c10empty) "/x" (some "7") gwGetEscrow
        (.ok "1") (.ok ())).upstreamCalled = true := by
  have h := c10_price_zero_admits_all (fun s => s) "0xC" "0xW" "/x" c10empty
    gwGetEscrow (.ok "1") (.ok ())
  exact ⟨rfl, h.1 rfl, rfl, rfl, h.2.2 (h.1 rfl) "7" gwEscrowCreated rfl rfl⟩

/-- C8 counterexample: a network failure of the ledger read (the raw
contract call rejects with a network error, not a missing record) is
mapped by `makeEscrowContractLive.getEscrow` to `EscrowNotFound` and
surfaced as HTTP 400 — not as the claimed 500 ledger-call-failed. -/
theorem c8_read_failure_counterexample :
    liveGetEscrow 7 (.error "network timeout: ECONNREFUSED")
      = .error (.escrowNotFound 7)
    ∧ (proxyProgram (fun s => s) "0xC" "0xW" (.ok gwListing) "/data" (some "7")
        (fun i => liveGetEscrow i (.error "network timeout: ECONNREFUSED"))
        (.ok "1") (.ok ())).status = 400
    ∧ (proxyProgram (fun s => s) "0xC" "0xW" (.ok gwListing) "/data" (some "7")
        (fun i => liveGetEscrow i (.error "network timeout: ECONNREFUSED"))
        (.ok "1") (.ok ())).status ≠ 500 := ⟨rfl, rfl, by decide⟩

/-- C8 amended: a failure of the ledger WRITE (`confirmDelivery`) is
classified `ContractCallFailed` with the failing method name and cause
and surfaced as HTTP 500; but a failure of the ledger READ
(`getEscrow`) of ANY kind — network failure included — is mapped by the
live layer to `EscrowNotFound` and surfaced as HTTP 400, conflated with
the missing-record rejection. -/
theorem c8_ledger_error_classification (hashFn : String → String)
    (caddr waddr subPath hdr raw rawErr : String)
    (listing : ApiListing) (g : Nat → Except GwError GwEscrow) (escrow : GwEscrow)
    (u : Except String String) (c : Except GwError Unit)
    (hget : g (jsNat hdr) = .ok escrow)
    (hstate : escrow.state = EscrowState.Created)
    (hamt : ¬ escrow.amount < jsNat (resolvePriceWei listing subPath)) :
    (proxyProgram hashFn caddr waddr (.ok listing) subPath (some hdr) g (.ok raw)
        (liveConfirmDelivery (.error rawErr))
      = { status := 500, headers := [],
          body := .errorMsg ("Contract call failed: confirmDelivery — " ++ rawErr),
          hashedInput := some raw, upstreamCalled := true,
          confirmDeliveryCalled := true })
    ∧ (proxyProgram hashFn caddr waddr (.ok listing) subPath (some hdr)
        (fun i => liveGetEscrow i (.error rawErr)) u c
      = { status := 400, headers := [],
          body := .errorMsg ("Escrow #" ++ toString (jsNat hdr) ++ " not found on-chain"),
          hashedInput := none, upstreamCalled := false,
          confirmDeliveryCalled := false }) := by
  constructor
  · exact proxy_confirm_error hashFn caddr waddr subPath hdr raw "confirmDelivery" rawErr
      listing g escrow hget hstate hamt
  · rfl

/-- Witness for C8 (amended): a failed gas-estimation write surfaces as
500 with the method name; any read failure surfaces as 400 not-found. -/
theorem c8_ledger_error_classification_witness :
    (gwGetEscrow (jsNat "7") = .ok gwEscrowCreated
      ∧ gwEscrowCreated.state = EscrowState.Created
      ∧ ¬ gwEscrowCreated.amount < jsNat (resolvePriceWei gwListing "/data"))
    ∧ (proxyProgram (fun s => s) "0xC" "0xW" (.ok gwListing) "/data" (some "7") gwGetEscrow
        (.ok "1") (liveConfirmDelivery (.error "insufficient funds for gas"))).status = 500
    ∧ (proxyProgram (fun s => s) "0xC" "0xW" (.ok gwListing) "/data" (some "7")
        (fun i => liveGetEscrow i (.error "insufficient funds for gas"))
        (.ok "1") (.ok ())).status = 400 := by
  have h := c8_ledger_error_classification (fun s => s) "0xC" "0xW" "/data" "7" "1"
    "insufficient funds for gas" gwListing gwGetEscrow gwEscrowCreated
    (.ok "1") (.ok ()) rfl rfl (by decide)
  exact ⟨⟨rfl, rfl, by decide⟩, by rw [h.1], by rw [h.2]⟩

/-- C1 (code bug): on a successful mediated call the gateway hashes the
raw upstream bytes (`hashedInput`) and exposes the digest in
`X-Data-Hash` beside the escrow id — but the body it returns is the
`JSON.parse`/`res.json` re-serialization, whose bytes differ from the
hashed bytes whenever the upstream text is not in canonical
`JSON.stringify` form (here `"[1, 2]"` is returned as `"[1,2]"`).  And
a non-JSON upstream body makes the route throw into the generic 500
handler after `confirmDelivery` was already committed, with no hash
header at all. -/
theorem c1_hash_vs_body_bug :
    (c1outcome.status = 200
      ∧ c1outcome.hashedInput = some "[1, 2]"
      ∧ c1outcome.sentBodyBytes = some "[1,2]"
      ∧ c1outcome.sentBodyBytes ≠ c1outcome.hashedInput
      ∧ c1outcome.headers = [("X-Data-Hash", "[1, 2]"), ("X-Escrow-Id", "7")])
    ∧ (c1outcomeBad.status = 500 ∧ c1outcomeBad.confirmDeliveryCalled = true
      ∧ c1outcomeBad.headers = []) :=
  ⟨⟨rfl, rfl, rfl, by decide, rfl⟩, rfl, rfl, rfl⟩
